import Mathlib

/-!
Verification of the XM125 radar monitor's device-protocol layer.

The definitions below are a shallow embedding of the Rust sources under
`src/`.  Machine integers (`u16`, `u32`) are modelled as `Nat` (all values
involved stay far below `2^32`, and bitwise masking is explicit where the
source masks).  `f32` arithmetic is modelled with exact rationals `ℚ`; every
theorem that depends on a float computation is evaluated only at inputs where
all `f32` intermediates are exactly representable (dyadic values, or integer
quotients whose `f32` rounding provably agrees with the exact value), so the
rational model coincides with the source's float model there.  A Rust
`value as u32` cast of a non-negative float truncates toward zero and is
modelled by `Int.toNat ⌊·⌋`.  Fallible operations return `Except` / `Option`,
and asynchronous polling loops are given explicit fuel standing for the
bounded number of poll iterations that fit inside the source's wall-clock
timeout.  I2C traffic is modelled by an explicit state that records, in
order, the register writes performed, and feeds status-register reads from an
oracle `Nat → Nat` (the value returned by the k-th status read).
-/

namespace XM125

/-! ## Register map constants (from `src/src/radar.rs`, which carries the
same constant block that `src/src/radar/registers.rs` re-exports) -/

def REG_DETECTOR_STATUS : Nat := 3
def REG_DISTANCE_RESULT : Nat := 16
def REG_PEAK0_DISTANCE : Nat := 17
def REG_PEAK0_STRENGTH : Nat := 27
def REG_START_CONFIG : Nat := 64
def REG_END_CONFIG : Nat := 65
def REG_COMMAND : Nat := 256
def REG_PRESENCE_RESULT : Nat := 16
def REG_PRESENCE_DISTANCE : Nat := 17
def REG_INTRA_PRESENCE_SCORE : Nat := 18
def REG_INTER_PRESENCE_SCORE : Nat := 19

def CMD_APPLY_CONFIG_AND_CALIBRATE : Nat := 1
def CMD_MEASURE_DISTANCE : Nat := 2
/-- Reset-module command: the distinctive non-sequential sentinel
`0x52535421` (from `src/src/radar.rs`). -/
def CMD_RESET_MODULE : Nat := 0x52535421
def CMD_PRESENCE_APPLY_CONFIGURATION : Nat := 1
def CMD_PRESENCE_START : Nat := 2

/-- Presence command register.  The file `radar/registers.rs` is not under
`src/`, but `src/src/radar/presence.rs` documents the address in its log
messages ("CMD_PRESENCE_APPLY_CONFIGURATION to register 0x0100"). -/
def PRESENCE_REG_COMMAND_ADDRESS : Nat := 0x0100

/-- Modelled from the spec: `radar/registers.rs` is missing from `src/`.
The busy flag is the top bit of the 32-bit status word (spec §3
"a busy flag (top bit)"; `src/src/radar.rs` has `STATUS_BUSY = 0x80000000`). -/
def STATUS_BUSY_MASK : Nat := 0x80000000

/-- Modelled from the spec: `radar/registers.rs` is missing from `src/`.
The aggregate error mask is the OR of all per-step error bits (spec §3);
`src/src/radar.rs` places the per-step error bits at bits 16–25 and the
detector error at bit 28. -/
def STATUS_ERROR_MASK : Nat := 0x13FF0000

/-- Modelled from the spec: `radar/registers.rs` is missing from `src/`.
Spec §4.1: reset-module uses a distinctive non-sequential sentinel value so
it can never collide with an auto-incremented command; the presence protocol
uses the same sentinel as the distance protocol. -/
def CMD_PRESENCE_RESET_MODULE : Nat := 0x52535421

/-- Modelled from the spec: `radar/registers.rs` is missing from `src/`.
Start-detector command for the presence application (sequential code after
apply-configuration). -/
def CMD_PRESENCE_START_DETECTOR : Nat := 2

/-- Modelled from the spec: presence configuration register addresses from
the missing `radar/registers.rs`.  Start/end match the "estimated" values in
`src/src/radar.rs` (64/65); the remaining addresses are placeholders — no
claim depends on their numeric values, only on which value is written where. -/
def PRESENCE_REG_START_ADDRESS : Nat := 64
def PRESENCE_REG_END_ADDRESS : Nat := 65
def PRESENCE_REG_AUTO_PROFILE_ADDRESS : Nat := 66
def PRESENCE_REG_AUTO_STEP_LENGTH_ADDRESS : Nat := 67
def PRESENCE_REG_MANUAL_PROFILE_ADDRESS : Nat := 68
def PRESENCE_REG_MANUAL_STEP_LENGTH_ADDRESS : Nat := 69
def PRESENCE_REG_SIGNAL_QUALITY_ADDRESS : Nat := 70

/-! ## Error kinds (from `src/src/error.rs`; messages elided) -/

/-- The `RadarError` variants relevant to the claims (`src/src/error.rs`).
Payload strings/fields are elided: the claims are about the error kind. -/
inductive RadarErrorE where
  | i2c
  | timeout
  | deviceError
  | notConnected
  | invalidParameters
  | measurementFailed
  deriving DecidableEq, Repr

/-! ## Rust `as u32` on a non-negative rational value -/

/-- Rust `q as u32` for a non-negative value: truncation toward zero. -/
def ratAsU32 (q : ℚ) : Nat := (⌊q⌋).toNat

/-- Rust `u32::clamp(self, lo, hi)`. -/
def natClamp (x lo hi : Nat) : Nat := if x < lo then lo else if x > hi then hi else x

/-! ## I2C bus trace model

Status reads are fed from the oracle `status` by read index (the device is
free-running, so consecutive reads may see different words); register writes
are recorded chronologically.  Bus transactions themselves are modelled as
infallible — opaque bus failures are orthogonal to every claim below. -/

structure I2cState where
  status : Nat → Nat
  reads : Nat
  writes : List (Nat × Nat)

def I2cState.init (σ : Nat → Nat) : I2cState := ⟨σ, 0, []⟩

def readStatusWord (s : I2cState) : Nat × I2cState :=
  (s.status s.reads, { s with reads := s.reads + 1 })

def writeRegister (reg val : Nat) (s : I2cState) : I2cState :=
  { s with writes := s.writes ++ [(reg, val)] }

/-- Busy test on a raw status word (`is_busy`, distance.rs 68–72 /
presence.rs 393–399). -/
def busySet (v : Nat) : Bool := v &&& STATUS_BUSY_MASK != 0

/-- Error test on a raw status word (`has_errors`, distance.rs 75–79 /
presence.rs 402–408). -/
def errorSet (v : Nat) : Bool := v &&& STATUS_ERROR_MASK != 0

/-- `wait_for_not_busy` (distance.rs 82–91, presence.rs 332–346): poll the
status register until the busy bit clears.  `fuel` is the number of polls
that fit inside the source's wall-clock timeout (~5 s at 10 ms per poll);
`false` is the timeout error. -/
def waitForNotBusy : Nat → I2cState → I2cState × Bool
  | 0, s => (s, false)
  | fuel + 1, s =>
    let p := readStatusWord s
    if busySet p.1 then waitForNotBusy fuel p.2 else (p.2, true)

/-! ## Presence detector (`src/src/radar/presence.rs`) -/

/-- `PresenceRange` presets (presence.rs 14–18). -/
inductive PresenceRange where
  | short
  | medium
  | long
  deriving DecidableEq, Repr

namespace PresenceDetector

/-- `PresenceDetector::calculate_optimal_profile` (presence.rs 39–49).
`end_mm as f32 / 1000.0` is modelled exactly in `ℚ`; at every integer
millimetre input the `f32` comparisons against 0.7 / 2.0 / 3.5 / 6.0 agree
with the exact rational comparisons (the boundaries 2.0, 3.5, 6.0 are exact
`f32` values, and at 700 mm both sides round to the same float). -/
def calculate_optimal_profile (_start_mm end_mm : Nat) : Nat :=
  let max_range_m : ℚ := (end_mm : ℚ) / 1000
  if max_range_m ≤ 7/10 then 1
  else if max_range_m ≤ 2 then 2
  else if max_range_m ≤ 7/2 then 3
  else if max_range_m ≤ 6 then 4
  else 5

/-- `PresenceDetector::calculate_optimal_step_length` (presence.rs 52–61):
`(max_range_m * 1000.0 / 60.0) as u32`, clamped to `[12, 120]`. -/
def calculate_optimal_step_length (end_mm : Nat) : Nat :=
  let max_range_m : ℚ := (end_mm : ℚ) / 1000
  natClamp (ratAsU32 (max_range_m * 1000 / 60)) 12 120

/-- Preset millimetre intervals (presence.rs 73–86). -/
def presetRangeMm : PresenceRange → Nat × Nat
  | .short => (60, 700)
  | .medium => (200, 2000)
  | .long => (300, 5500)

/-- `PresenceDetector::configure_range` (presence.rs 64–127): resolves the
preset (or the custom override, converted with `as u32` truncation) and
returns the computed (profile, step length) pair.  Despite its name this
function performs no register write. -/
def configure_range (range : PresenceRange)
    (custom_start_m custom_length_m : Option ℚ) : Nat × Nat :=
  let pre := presetRangeMm range
  let fin : Nat × Nat :=
    match custom_start_m, custom_length_m with
    | some s, some l => (ratAsU32 (s * 1000), ratAsU32 ((s + l) * 1000))
    | _, _ => pre
  (calculate_optimal_profile fin.1 fin.2, calculate_optimal_step_length fin.2)

/-- `PresenceDetector::reset_module` (presence.rs 376–390): writes the
presence reset-module command (the settle sleep is not observable on the
bus). -/
def resetModuleWrite (s : I2cState) : I2cState :=
  writeRegister PRESENCE_REG_COMMAND_ADDRESS CMD_PRESENCE_RESET_MODULE s

/-- `PresenceDetector::write_command_safe` (presence.rs 411–427): if busy,
wait (bounded) until not busy; if the status shows errors and the command is
not reset-module (the source compares against the distance-protocol constant
`CMD_RESET_MODULE`), reset the module first; then write the command.  The
`Bool` is `false` when the busy wait timed out — the command is then never
written. -/
def write_command_safe (fuel command : Nat) (s : I2cState) : I2cState × Bool :=
  let p0 := readStatusWord s
  match if busySet p0.1 then waitForNotBusy fuel p0.2 else (p0.2, true) with
  | (s1, false) => (s1, false)
  | (s1, true) =>
    let p1 := readStatusWord s1
    let s2 := if errorSet p1.1 && command != CMD_RESET_MODULE
      then resetModuleWrite p1.2 else p1.2
    (writeRegister PRESENCE_REG_COMMAND_ADDRESS command s2, true)

/-- `configuration_ok` (presence.rs 349–373): reads the status register and
reports failure when the error bit `0x10000000` is set. -/
def configurationOk (s : I2cState) : Bool × I2cState :=
  let p := readStatusWord s
  (p.1 &&& 0x10000000 == 0, p.2)

/-- The manual profile written by `apply_complete_configuration`
(presence.rs 252): 5 for ranges of at least 6500 mm, else 4. -/
def applyCompleteProfile (final_end_mm : Nat) : Nat :=
  if final_end_mm ≥ 6500 then 5 else 4

/-- The manual step length written by `apply_complete_configuration`
(presence.rs 253–254). -/
def applyCompleteStepLength (final_end_mm : Nat) : Nat :=
  natClamp (ratAsU32 ((final_end_mm : ℚ) / 1000 * 1000 / 60)) 12 120

/-- `PresenceDetector::apply_complete_configuration` (presence.rs 231–329):
reset module, wait not-busy, disable auto profile/step-length, write manual
profile and step length, signal quality 20000, the range (last), the
apply-configuration command, wait not-busy, verify, start the detector. -/
def apply_complete_configuration (fuel final_start_mm final_end_mm : Nat)
    (s : I2cState) : I2cState × Except RadarErrorE Unit :=
  let s := resetModuleWrite s
  match waitForNotBusy fuel s with
  | (s, false) => (s, .error .timeout)
  | (s, true) =>
    let s := writeRegister PRESENCE_REG_AUTO_PROFILE_ADDRESS 0 s
    let s := writeRegister PRESENCE_REG_AUTO_STEP_LENGTH_ADDRESS 0 s
    let s := writeRegister PRESENCE_REG_MANUAL_PROFILE_ADDRESS
      (applyCompleteProfile final_end_mm) s
    let s := writeRegister PRESENCE_REG_MANUAL_STEP_LENGTH_ADDRESS
      (applyCompleteStepLength final_end_mm) s
    let s := writeRegister PRESENCE_REG_SIGNAL_QUALITY_ADDRESS 20000 s
    let s := writeRegister PRESENCE_REG_START_ADDRESS final_start_mm s
    let s := writeRegister PRESENCE_REG_END_ADDRESS final_end_mm s
    let s := writeRegister PRESENCE_REG_COMMAND_ADDRESS
      CMD_PRESENCE_APPLY_CONFIGURATION s
    match waitForNotBusy fuel s with
    | (s, false) => (s, .error .timeout)
    | (s, true) =>
      let p := configurationOk s
      if !p.1 then (p.2, .error .deviceError)
      else
        (writeRegister PRESENCE_REG_COMMAND_ADDRESS CMD_PRESENCE_START_DETECTOR p.2,
         .ok ())

end PresenceDetector

/-! ## Distance detector (`src/src/radar/distance.rs`) -/

namespace DistanceDetector

/-- `DistanceDetector::configure_range` (distance.rs 32–44): converts the
metre inputs to millimetres with Rust `as u32` truncation and writes them to
the start and end configuration registers. -/
def configure_range (start_m length_m : ℚ) (s : I2cState) : I2cState :=
  let start_mm := ratAsU32 (start_m * 1000)
  let end_mm := ratAsU32 ((start_m + length_m) * 1000)
  writeRegister REG_END_CONFIG end_mm (writeRegister REG_START_CONFIG start_mm s)

/-- `DistanceDetector::reset_module` (distance.rs 112–123): writes the
reset-module sentinel to the command register. -/
def resetModuleWrite (s : I2cState) : I2cState :=
  writeRegister REG_COMMAND CMD_RESET_MODULE s

/-- `DistanceDetector::write_command_safe` (distance.rs 94–109): if busy,
wait (bounded by the ~5 s timeout) until not busy; if the status shows
errors and the command is not reset-module, reset the module first; then
write the command.  The `Bool` is `false` when the busy wait timed out —
the command is then never written. -/
def write_command_safe (fuel command : Nat) (s : I2cState) : I2cState × Bool :=
  let p0 := readStatusWord s
  match if busySet p0.1 then waitForNotBusy fuel p0.2 else (p0.2, true) with
  | (s1, false) => (s1, false)
  | (s1, true) =>
    let p1 := readStatusWord s1
    let s2 := if errorSet p1.1 && command != CMD_RESET_MODULE
      then resetModuleWrite p1.2 else p1.2
    (writeRegister REG_COMMAND command s2, true)

end DistanceDetector

/-- The register writes `DistanceDetector::write_command_safe` performs when
the post-wait error check (status read index `i + 1`) shows an error bit: a
reset-module command precedes the requested command. -/
def dErrorWrites (σ : Nat → Nat) (i command : Nat) : List (Nat × Nat) :=
  if errorSet (σ (i + 1)) && command != CMD_RESET_MODULE
  then [(REG_COMMAND, CMD_RESET_MODULE)] else []

/-- The corresponding conditional reset write of
`PresenceDetector::write_command_safe`. -/
def pErrorWrites (σ : Nat → Nat) (i command : Nat) : List (Nat × Nat) :=
  if errorSet (σ (i + 1)) && command != CMD_RESET_MODULE
  then [(PRESENCE_REG_COMMAND_ADDRESS, CMD_PRESENCE_RESET_MODULE)] else []

/-- Status oracle used to instantiate the busy/error-discipline theorem:
the first read shows busy, the second shows idle, the third shows a
sensor-calibrate error bit. -/
def disciplineOracle : Nat → Nat :=
  fun k => if k = 0 then 0x80000000 else if k = 1 then 0 else 0x01000000

/-- The full ordered register-write sequence of a successful
`apply_complete_configuration` run (presence.rs 231–329). -/
def presenceApplyWriteList (start_mm end_mm : Nat) : List (Nat × Nat) :=
  [(PRESENCE_REG_COMMAND_ADDRESS, CMD_PRESENCE_RESET_MODULE),
   (PRESENCE_REG_AUTO_PROFILE_ADDRESS, 0),
   (PRESENCE_REG_AUTO_STEP_LENGTH_ADDRESS, 0),
   (PRESENCE_REG_MANUAL_PROFILE_ADDRESS, PresenceDetector.applyCompleteProfile end_mm),
   (PRESENCE_REG_MANUAL_STEP_LENGTH_ADDRESS,
     PresenceDetector.applyCompleteStepLength end_mm),
   (PRESENCE_REG_SIGNAL_QUALITY_ADDRESS, 20000),
   (PRESENCE_REG_START_ADDRESS, start_mm),
   (PRESENCE_REG_END_ADDRESS, end_mm),
   (PRESENCE_REG_COMMAND_ADDRESS, CMD_PRESENCE_APPLY_CONFIGURATION),
   (PRESENCE_REG_COMMAND_ADDRESS, CMD_PRESENCE_START_DETECTOR)]

/-! ## Presence measurement decoding -/

structure PresenceMeasurementE where
  presence_detected : Bool
  presence_distance : ℚ
  intra_presence_score : ℚ
  inter_presence_score : ℚ
  deriving DecidableEq, Repr

/-- `PresenceDetector::measure` decoding (presence.rs 486–536): presence is
bit 0 of the result word; distance is mm→m, the two scores are scaled by
1/1000 (timestamp elided; `f32` division by 1000 modelled exactly in `ℚ`,
which agrees with `f32` at the claim's inputs since the quotient rounds to
the same float as the decimal literal). -/
def presenceMeasureDecode (result distance intra inter : Nat) :
    PresenceMeasurementE :=
  { presence_detected := result &&& 0x1 != 0
    presence_distance := (distance : ℚ) / 1000
    intra_presence_score := (intra : ℚ) / 1000
    inter_presence_score := (inter : ℚ) / 1000 }

/-- `XM125Radar::measure_presence` result decoding (radar.rs 1460–1523):
the same field scaling, but the read is rejected when bit 15 of the result
word (detector error) is set. -/
def measurePresenceDecode (result distance intra inter : Nat) :
    Except RadarErrorE PresenceMeasurementE :=
  if result &&& 0x8000 != 0 then .error .deviceError
  else .ok (presenceMeasureDecode result distance intra inter)

/-! ## Radar session façade -/

/-- Outcome of `XM125Radar::connect` (src/src/radar/mod.rs 100–135). -/
structure ConnectOutcome where
  result : Except RadarErrorE Unit
  is_connected : Bool
  resetAttempted : Bool

/-- Environment of one `connect()` run: the outcome of the initial
status-register read, of the GPIO reset-to-run-mode sequence, and of the
status read retried after the reset (`none` = the I2C read failed, `some v`
= it returned the word `v`). -/
structure ConnectEnv where
  firstRead : Option Nat
  resetOk : Bool
  secondRead : Option Nat

/-- `XM125Radar::connect` (src/src/radar/mod.rs 100–135): try a status
read; on success mark connected and return with no reset.  On failure run
the GPIO reset-to-run-mode; if the reset succeeded, wait ~1 s and retry the
status read once, reporting connected on success.  Only after that is
`NotConnected` returned. -/
def connect (env : ConnectEnv) : ConnectOutcome :=
  match env.firstRead with
  | some _ => { result := .ok (), is_connected := true, resetAttempted := false }
  | none =>
    if env.resetOk then
      match env.secondRead with
      | some _ => { result := .ok (), is_connected := true, resetAttempted := true }
      | none =>
        { result := .error .notConnected, is_connected := false, resetAttempted := true }
    else
      { result := .error .notConnected, is_connected := false, resetAttempted := true }

/-- Calibration-relevant session state (radar.rs 420–429); instants are in
seconds, `elapsed` is `now - t`. -/
structure CalibrationState where
  is_calibrated : Bool
  last_calibration : Option Nat
  deriving DecidableEq, Repr

/-- The recalibration trigger of `XM125Radar::measure_distance`
(radar.rs 684–693): recalibrate when never calibrated, or when there is no
calibration stamp, or when the last calibration is more than 300 s old. -/
def measureDistanceNeedsCalibration (st : CalibrationState) (now : Nat) : Bool :=
  !st.is_calibrated ||
    (match st.last_calibration with
     | none => true
     | some t => now - t > 300)

/-- The success path of `XM125Radar::calibrate` (radar.rs 630–641): stamps
`is_calibrated` and `last_calibration` with the current instant. -/
def calibrateStamp (now : Nat) : CalibrationState :=
  { is_calibrated := true, last_calibration := some now }

/-- The calibration step `measure_distance` performs before sending the
measure command (radar.rs 684–696): recalibrate — stamping the state on
success — exactly when needed.  Returns whether a recalibration was
triggered. -/
def measureDistanceCalibrationStep (st : CalibrationState) (now : Nat) :
    Bool × CalibrationState :=
  if measureDistanceNeedsCalibration st now then (true, calibrateStamp now)
  else (false, st)

/-! ## Distance result decoding (`src/src/radar.rs::read_distance_result`) -/

/-- The result registers one iteration of `read_distance_result` reads
(radar.rs 752–805). -/
structure DistanceResultRegs where
  result : Nat
  peak0Distance : Nat
  peak0Strength : Nat
  deriving DecidableEq, Repr

/-- Decoded distance measurement (radar.rs 764–835).  Distance and strength
are kept in raw device units (the source divides both by 1000.0 into
`f32`); the temperature is the signed reading of the top 16 bits. -/
structure DistanceDecoded where
  numDistances : Nat
  nearStartEdge : Bool
  measureError : Bool
  distanceMm : Nat
  strengthRaw : Nat
  temperature : Int
  deriving DecidableEq, Repr

/-- Rust `u32 as i16` on a 16-bit value (radar.rs 821). -/
def toI16 (v : Nat) : Int :=
  let w := v % 65536
  if w < 32768 then (w : Int) else (w : Int) - 65536

/-- One iteration's decode (radar.rs 764–835), applied once the
calibration-needed bit was seen clear.  A set measure-error bit (bit 10) is
only recorded — the source logs it and continues. -/
def decodeDistanceResult (r : DistanceResultRegs) : DistanceDecoded :=
  let num := r.result &&& 0xF
  { numDistances := num
    nearStartEdge := r.result &&& 0x100 != 0
    measureError := r.result &&& 0x400 != 0
    distanceMm := if num > 0 then r.peak0Distance else 0
    strengthRaw := r.peak0Strength
    temperature := toI16 ((r.result &&& 0xFFFF0000) >>> 16) }

/-- `XM125Radar::read_distance_result` (radar.rs 752–837): read the packed
result word; while the calibration-needed bit (bit 9) is set, recalibrate
and re-read instead of returning the stale data; otherwise decode.
`rounds k` gives the registers seen on the k-th iteration (each
recalibration changes the device state, so rounds may differ);
`calibrate()` is modelled as succeeding — its own failures propagate
independently of the decoded word.  The source loop is unbounded; `fuel`
makes the model total.  On success the decoded measurement is returned
together with the index of the iteration (= number of recalibrations
performed before it). -/
def read_distance_result (rounds : Nat → DistanceResultRegs) :
    Nat → Nat → Option (DistanceDecoded × Nat)
  | 0, _ => none
  | fuel + 1, k =>
    let r := rounds k
    if r.result &&& 0x200 != 0 then read_distance_result rounds fuel (k + 1)
    else some (decodeDistanceResult r, k)

/-- Result-register rounds used to instantiate the recalibration-policy
theorem: the first read shows calibration-needed (bit 9), the re-read after
recalibration shows a clean word with the measure-error bit (bit 10) set
and two peaks. -/
def calibrationRounds : Nat → DistanceResultRegs :=
  fun k => if k = 0 then ⟨0x200, 0, 0⟩ else ⟨0x400 + 2, 1500, 800⟩

/-! ## Presence parameter validation (`src/src/config.rs`) -/

/-- CLI-facing profile mode (src/src/cli.rs). -/
inductive ProfileMode where
  | auto
  | manual
  deriving DecidableEq, Repr

/-- The session-config fields `configure_presence_parameters` touches
(`XM125Config` in src/src/radar/mod.rs). -/
structure PresenceParamsConfig where
  presence_range : PresenceRange
  start_m : ℚ
  length_m : ℚ
  intra_detection_threshold : ℚ
  inter_detection_threshold : ℚ
  frame_rate : ℚ
  auto_profile_enabled : Bool
  deriving DecidableEq, Repr

/-- `XM125Config::default()` fields relevant here (src/src/radar/mod.rs
51–72). -/
def defaultPresenceParamsConfig : PresenceParamsConfig :=
  { presence_range := .long
    start_m := 1/10
    length_m := 29/10
    intra_detection_threshold := 13/10
    inter_detection_threshold := 1
    frame_rate := 12
    auto_profile_enabled := true }

/-- `configure_presence_parameters` (src/src/config.rs 43–127): validate
and fold the CLI parameters into the config, with early `DeviceError`
returns for min ≥ max, sensitivity outside 0.1–5.0, and frame rate outside
1–60.  The only call that touches device registers,
`radar.configure_presence_range()` at the end, runs only on the success
path, after every validation; the `Bool` of the success payload records
that it ran (its own device errors are orthogonal to validation).  An error
result therefore implies that no register write occurred. -/
def configure_presence_parameters (cfg : PresenceParamsConfig)
    (presence_range : Option PresenceRange) (min_range max_range : Option ℚ)
    (sensitivity frame_rate : Option ℚ) (profile : ProfileMode) :
    Except RadarErrorE (PresenceParamsConfig × Bool) :=
  let cfg1 := match presence_range with
    | some r => { cfg with presence_range := r }
    | none => cfg
  let rangeStep : Except RadarErrorE PresenceParamsConfig :=
    match min_range, max_range with
    | some mn, some mx =>
      if mn ≥ mx then .error .deviceError
      else .ok { cfg1 with start_m := mn, length_m := mx - mn }
    | _, _ => .ok cfg1
  match rangeStep with
  | .error e => .error e
  | .ok cfg2 =>
    let sensStep : Except RadarErrorE PresenceParamsConfig :=
      match sensitivity with
      | some s =>
        if ¬(1/10 ≤ s ∧ s ≤ 5) then .error .deviceError
        else .ok { cfg2 with intra_detection_threshold := s * 1000
                             inter_detection_threshold := s * 800 }
      | none => .ok cfg2
    match sensStep with
    | .error e => .error e
    | .ok cfg3 =>
      let rateStep : Except RadarErrorE PresenceParamsConfig :=
        match frame_rate with
        | some r =>
          if ¬(1 ≤ r ∧ r ≤ 60) then .error .deviceError
          else .ok { cfg3 with frame_rate := r }
        | none => .ok cfg3
      match rateStep with
      | .error e => .error e
      | .ok cfg4 =>
        let cfg5 := match profile with
          | .auto => { cfg4 with auto_profile_enabled := true }
          | .manual => { cfg4 with auto_profile_enabled := false }
        .ok (cfg5, true)

/-! ## Combined measurement (`src/src/radar.rs::measure_combined`) -/

inductive DetectorMode where
  | distance
  | presence
  | combined
  | breathing
  deriving DecidableEq, Repr

/-- The session fields `measure_combined` consults (radar.rs 420–429). -/
structure SessionState where
  is_connected : Bool
  auto_reconnect : Bool
  detector_mode : DetectorMode
  deriving DecidableEq, Repr

structure CombinedMeasurementE where
  distance : Option DistanceDecoded
  presence : Option PresenceMeasurementE

/-- `XM125Radar::measure_combined` (radar.rs 1527–1553): auto-connect when
disconnected with auto-reconnect enabled (its outcome is the oracle
`autoConnect`), require connection and Combined mode, then take the inner
distance and presence measurements with `.ok()` — their errors become
`None` fields instead of propagating. -/
def measure_combined (st : SessionState)
    (autoConnect : Except RadarErrorE SessionState)
    (distanceRes : Except RadarErrorE DistanceDecoded)
    (presenceRes : Except RadarErrorE PresenceMeasurementE) :
    Except RadarErrorE CombinedMeasurementE :=
  let step : Except RadarErrorE SessionState :=
    if !st.is_connected && st.auto_reconnect then autoConnect else .ok st
  match step with
  | .error e => .error e
  | .ok st' =>
    if !st'.is_connected then .error .notConnected
    else if st'.detector_mode != .combined then .error .invalidParameters
    else .ok { distance := distanceRes.toOption, presence := presenceRes.toOption }

/-! ## Firmware decision logic (`src/src/firmware.rs`) -/

inductive FirmwareType where
  | distance
  | presence
  | breathing
  deriving DecidableEq, Repr

/-- `FirmwareType::application_id` (firmware.rs 17–23). -/
def FirmwareType.application_id : FirmwareType → Nat
  | .distance => 1
  | .presence => 2
  | .breathing => 3

/-- `FirmwareManager::firmware_update_needed` (firmware.rs 396–430).  The
device-reported and binary-file checksums come from collaborators; a failed
collaborator call is `none` (the source's `Err` branches). -/
def firmware_update_needed (current_app_id : Nat) (desired : FirmwareType)
    (deviceChecksum binaryChecksum : Option String) : Bool :=
  if current_app_id != desired.application_id then true
  else
    match deviceChecksum with
    | some d =>
      match binaryChecksum with
      | some b => if d == b then false else true
      | none => false
    | none => false

/-! # Theorems -/

/-- Claim C9: decoding the four presence result registers maps raw words to
a measurement by `presence_detected = (bit 0 ≠ 0)`, `presence_distance =
distance_raw / 1000` (mm → m), `intra = intra_raw / 1000`, `inter =
inter_raw / 1000`; in particular `result = 0x1, distance_raw = 2500,
intra_raw = 1300, inter_raw = 1000` decodes to `{detected, 2.5, 1.3, 1.0}` —
both in the presence module's `measure` and in the session's
`measure_presence` (whose bit-15 error check passes here). -/
theorem presence_result_decoding_roundtrip :
    presenceMeasureDecode 0x1 2500 1300 1000 =
      { presence_detected := true, presence_distance := 5/2,
        intra_presence_score := 13/10, inter_presence_score := 1 }
    ∧ measurePresenceDecode 0x1 2500 1300 1000 =
      .ok { presence_detected := true, presence_distance := 5/2,
            intra_presence_score := 13/10, inter_presence_score := 1 } := by
  constructor
  · unfold presenceMeasureDecode
    norm_num [PresenceMeasurementE.mk.injEq]
  · unfold measurePresenceDecode presenceMeasureDecode
    norm_num [PresenceMeasurementE.mk.injEq]

/-- Claim C8: `firmware_update_needed` returns true whenever the current
application id differs from the desired type's id (1 = Distance,
2 = Presence, 3 = Breathing); when the ids match it returns true exactly
when both checksums are obtainable and differ, and false otherwise —
including when either checksum cannot be obtained. -/
theorem firmware_update_needed_decision :
    FirmwareType.application_id .distance = 1
    ∧ FirmwareType.application_id .presence = 2
    ∧ FirmwareType.application_id .breathing = 3
    ∧ (∀ (cur : Nat) (t : FirmwareType) (dc bc : Option String),
        cur ≠ t.application_id → firmware_update_needed cur t dc bc = true)
    ∧ (∀ (t : FirmwareType) (dc bc : Option String),
        firmware_update_needed t.application_id t dc bc = true ↔
          ∃ d b, dc = some d ∧ bc = some b ∧ d ≠ b)
    ∧ firmware_update_needed 1 .presence none none = true := by
  refine ⟨rfl, rfl, rfl, ?_, ?_, by decide⟩
  · intro cur t dc bc h
    simp [firmware_update_needed, h]
  · intro t dc bc
    cases dc with
    | none => simp [firmware_update_needed]
    | some d =>
      cases bc with
      | none => simp [firmware_update_needed]
      | some b =>
        by_cases hdb : d = b <;> simp [firmware_update_needed, hdb]

/-- Witness for C8 at a concrete input: ids match and the two obtainable
checksums differ, so an update is needed. -/
theorem firmware_update_needed_decision_witness :
    firmware_update_needed (FirmwareType.application_id .presence) .presence
      (some "a") (some "b") = true :=
  (firmware_update_needed_decision.2.2.2.2.1 .presence (some "a") (some "b")).mpr
    ⟨"a", "b", rfl, rfl, by decide⟩

/-- Claim C3: `measure_distance` triggers a recalibration before measuring
iff the session was never calibrated or the last calibration is older than
the 300 s staleness window; a successful calibration stamps
`last_calibration` with the current instant; 2 minutes after a calibration
no recalibration happens, 6 minutes after it does. -/
theorem measure_distance_calibration_staleness :
    (∀ (st : CalibrationState) (now : Nat),
        (measureDistanceCalibrationStep st now).1 = true ↔
          (st.is_calibrated = false ∨ st.last_calibration = none ∨
            ∃ t, st.last_calibration = some t ∧ now - t > 300))
    ∧ (∀ (st : CalibrationState) (now : Nat),
        (measureDistanceCalibrationStep st now).2 =
          if (measureDistanceCalibrationStep st now).1 then calibrateStamp now else st)
    ∧ (∀ now : Nat, calibrateStamp now = ⟨true, some now⟩)
    ∧ (∀ t : Nat,
        (measureDistanceCalibrationStep ⟨true, some t⟩ (t + 120)).1 = false)
    ∧ (∀ t : Nat,
        (measureDistanceCalibrationStep ⟨true, some t⟩ (t + 360)).1 = true) := by
  refine ⟨?_, ?_, fun _ => rfl, ?_, ?_⟩
  · intro st now
    cases st with
    | mk cal last =>
      cases cal <;> cases last <;>
        simp [measureDistanceCalibrationStep, measureDistanceNeedsCalibration]
      split_ifs <;> simp_all
  · intro st now
    by_cases h : measureDistanceNeedsCalibration st now = true <;>
      simp [measureDistanceCalibrationStep, h]
  · intro t
    simp [measureDistanceCalibrationStep, measureDistanceNeedsCalibration]
  · intro t
    simp [measureDistanceCalibrationStep, measureDistanceNeedsCalibration]

/-- Claim C10: on a connected Combined-mode session `measure_combined`
always returns `Ok`; the inner distance/presence errors are converted to
`None` fields via `.ok()` instead of propagating. -/
theorem measure_combined_swallows_inner_errors :
    ∀ (st : SessionState) (auto : Except RadarErrorE SessionState)
      (dres : Except RadarErrorE DistanceDecoded)
      (pres : Except RadarErrorE PresenceMeasurementE),
      st.is_connected = true → st.detector_mode = .combined →
        measure_combined st auto dres pres =
          .ok { distance := dres.toOption, presence := pres.toOption } := by
  intro st auto dres pres hc hm
  simp [measure_combined, hc, hm]

/-- Witness for C10: both inner measurements fail, yet the call returns
`Ok` with both fields `None`. -/
theorem measure_combined_swallows_inner_errors_witness :
    measure_combined ⟨true, true, .combined⟩ (.ok ⟨true, true, .combined⟩)
      (.error .timeout) (.error .deviceError) = .ok ⟨none, none⟩ := by
  have h := measure_combined_swallows_inner_errors ⟨true, true, .combined⟩
    (.ok ⟨true, true, .combined⟩) (.error .timeout) (.error .deviceError) rfl rfl
  simpa using h

/-- Claim C2: `connect()` first attempts a status read; on success the
session is connected with no reset.  On failure it performs the GPIO
reset-to-run-mode, waits ~1 s, retries the status read once and reports
connected iff the retry succeeds; `NotConnected` is returned (when the
reset sequence itself succeeded) exactly when both attempts failed. -/
theorem connect_resets_and_retries_once (env : ConnectEnv) :
    (env.firstRead.isSome = true →
        connect env = ⟨.ok (), true, false⟩)
    ∧ (env.firstRead = none → env.resetOk = true → env.secondRead.isSome = true →
        connect env = ⟨.ok (), true, true⟩)
    ∧ (env.resetOk = true →
        ((connect env).result = .error .notConnected ↔
          env.firstRead = none ∧ env.secondRead = none)) := by
  obtain ⟨r1, rok, r2⟩ := env
  refine ⟨?_, ?_, ?_⟩
  · intro h1
    cases r1 with
    | none => simp at h1
    | some v => simp [connect]
  · intro h1 hr h2
    cases r1 with
    | some v => simp at h1
    | none =>
      cases r2 with
      | none => simp at h2
      | some v => simp_all [connect]
  · intro hr
    cases r1 <;> cases r2 <;> simp_all [connect]

/-- Witness for C2: first status read fails, the GPIO reset succeeds, the
retried read succeeds — the session reports connected, not `NotConnected`. -/
theorem connect_resets_and_retries_once_witness :
    connect ⟨none, true, some 7⟩ = ⟨.ok (), true, true⟩ :=
  (connect_resets_and_retries_once ⟨none, true, some 7⟩).2.1 rfl rfl rfl

/-- Claim C7 (corrected): a sensitivity outside the 0.1–5.0 band is
rejected before `radar.configure_presence_range()` — the only call that
writes device registers — can run, but with the `DeviceError` kind, not
`InvalidParameters` as the claim states. -/
theorem sensitivity_rejection_kind_cex :
    configure_presence_parameters defaultPresenceParamsConfig
      none none none (some 6) none .auto = .error .deviceError
    ∧ RadarErrorE.deviceError ≠ RadarErrorE.invalidParameters := by
  constructor
  · simp only [configure_presence_parameters]
    rw [if_pos (by norm_num : ¬((1:ℚ)/10 ≤ 6 ∧ (6:ℚ) ≤ 5))]
  · decide

/-- Claim C7 (amended): any sensitivity outside 0.1–5.0 makes
`configure_presence_parameters` return `DeviceError` (the source's kind for
this rejection); the error is produced before the success path's
`configure_presence_range()` call, so no device register is written. -/
theorem sensitivity_out_of_band_rejected_before_write :
    ∀ (cfg : PresenceParamsConfig) (pr : Option PresenceRange)
      (mn mx : Option ℚ) (s : ℚ) (fr : Option ℚ) (prof : ProfileMode),
      ¬(1/10 ≤ s ∧ s ≤ 5) →
      configure_presence_parameters cfg pr mn mx (some s) fr prof
        = .error .deviceError := by
  intro cfg pr mn mx s fr prof hs
  rcases mn with _ | mn'
  · simp only [configure_presence_parameters]
    rw [if_pos hs]
  · rcases mx with _ | mx'
    · simp only [configure_presence_parameters]
      rw [if_pos hs]
    · by_cases hge : mn' ≥ mx'
      · simp only [configure_presence_parameters]
        rw [if_pos hge]
      · simp only [configure_presence_parameters, if_neg hge]
        rw [if_pos hs]

/-- Witness for C7's amended theorem at sensitivity 6.0. -/
theorem sensitivity_out_of_band_rejected_witness :
    configure_presence_parameters defaultPresenceParamsConfig
      (some .long) none none (some 6) none .manual = .error .deviceError :=
  sensitivity_out_of_band_rejected_before_write defaultPresenceParamsConfig
    (some .long) none none 6 none .manual (by norm_num)

/-- Claim C6 (corrected): `configure_range` converts metres to millimetres
with Rust `as u32`, which truncates toward zero — not with rounding as the
claim states.  At `start_m = length_m = 1/1024` (exactly representable in
`f32`, with every intermediate product a dyadic rational that `f32`
computes exactly), the start register receives `0` although
`round(start_m × 1000) = round(0.9765625) = 1`. -/
theorem distance_range_rounding_cex :
    (DistanceDetector.configure_range (1/1024) (1/1024)
        (I2cState.init fun _ => 0)).writes
      = [(REG_START_CONFIG, 0), (REG_END_CONFIG, 1)]
    ∧ round ((1/1024 : ℚ) * 1000) = 1
    ∧ (0 : Nat) ≠ 1 := by
  refine ⟨?_, ?_, by decide⟩
  · unfold DistanceDetector.configure_range ratAsU32 writeRegister I2cState.init
    norm_num
  · rw [round_eq]
    norm_num

/-- Claim C6 (amended): for valid inputs the values written to the start
and end registers are the truncations (floors) of `start_m × 1000` and
`(start_m + length_m) × 1000`, characterized by the usual floor
inequalities. -/
theorem distance_configure_range_truncation
    (start_m length_m : ℚ) (σ : Nat → Nat)
    (h0 : 0 ≤ start_m) (h1 : 0 < length_m) :
    ∃ s e : Nat,
      (DistanceDetector.configure_range start_m length_m
          (I2cState.init σ)).writes
        = [(REG_START_CONFIG, s), (REG_END_CONFIG, e)]
      ∧ (s : ℚ) ≤ start_m * 1000 ∧ start_m * 1000 < (s : ℚ) + 1
      ∧ (e : ℚ) ≤ (start_m + length_m) * 1000
      ∧ (start_m + length_m) * 1000 < (e : ℚ) + 1 := by
  have hq0 : (0:ℚ) ≤ start_m * 1000 := by positivity
  have hq1 : (0:ℚ) ≤ (start_m + length_m) * 1000 := by
    have : (0:ℚ) ≤ start_m + length_m := by linarith
    positivity
  refine ⟨ratAsU32 (start_m * 1000), ratAsU32 ((start_m + length_m) * 1000),
    rfl, ?_, ?_, ?_, ?_⟩
  · unfold ratAsU32
    rw [show ((⌊start_m * 1000⌋.toNat : ℕ) : ℚ) = ((⌊start_m * 1000⌋ : ℤ) : ℚ) by
      exact_mod_cast congrArg (fun z : ℤ => (z : ℚ))
        (Int.toNat_of_nonneg (Int.floor_nonneg.mpr hq0))]
    exact Int.floor_le _
  · unfold ratAsU32
    rw [show ((⌊start_m * 1000⌋.toNat : ℕ) : ℚ) = ((⌊start_m * 1000⌋ : ℤ) : ℚ) by
      exact_mod_cast congrArg (fun z : ℤ => (z : ℚ))
        (Int.toNat_of_nonneg (Int.floor_nonneg.mpr hq0))]
    exact Int.lt_floor_add_one _
  · unfold ratAsU32
    rw [show ((⌊(start_m + length_m) * 1000⌋.toNat : ℕ) : ℚ)
        = ((⌊(start_m + length_m) * 1000⌋ : ℤ) : ℚ) by
      exact_mod_cast congrArg (fun z : ℤ => (z : ℚ))
        (Int.toNat_of_nonneg (Int.floor_nonneg.mpr hq1))]
    exact Int.floor_le _
  · unfold ratAsU32
    rw [show ((⌊(start_m + length_m) * 1000⌋.toNat : ℕ) : ℚ)
        = ((⌊(start_m + length_m) * 1000⌋ : ℤ) : ℚ) by
      exact_mod_cast congrArg (fun z : ℤ => (z : ℚ))
        (Int.toNat_of_nonneg (Int.floor_nonneg.mpr hq1))]
    exact Int.lt_floor_add_one _

/-- Witness for C6's amended theorem at `start_m = 1/2`, `length_m = 1/2`. -/
theorem distance_configure_range_truncation_witness :
    ∃ s e : Nat,
      (DistanceDetector.configure_range (1/2) (1/2)
          (I2cState.init fun _ => 0)).writes
        = [(REG_START_CONFIG, s), (REG_END_CONFIG, e)]
      ∧ (s : ℚ) ≤ (1/2 : ℚ) * 1000 ∧ (1/2 : ℚ) * 1000 < (s : ℚ) + 1
      ∧ (e : ℚ) ≤ ((1/2 : ℚ) + 1/2) * 1000
      ∧ ((1/2 : ℚ) + 1/2) * 1000 < (e : ℚ) + 1 :=
  distance_configure_range_truncation (1/2) (1/2) (fun _ => 0)
    (by norm_num) (by norm_num)

/-- Claim C5 (corrected): for the Short preset (60–700 mm) `configure_range`
returns profile 1 per the selection table, but the profile
`apply_complete_configuration` actually writes to the manual-profile
register is computed by its own rule (`5` iff end ≥ 6500 mm, else `4`) and
is 4 here — not consistent with the table. -/
theorem presence_profile_table_mismatch_cex :
    PresenceDetector.configure_range .short none none = (1, 12)
    ∧ ((PresenceDetector.apply_complete_configuration 1 60 700
          (I2cState.init fun _ => 0)).1.writes.filter
            (fun w => w.1 == PRESENCE_REG_MANUAL_PROFILE_ADDRESS))
        = [(PRESENCE_REG_MANUAL_PROFILE_ADDRESS, 4)]
    ∧ (4 : Nat) ≠ 1 := by
  refine ⟨?_, ?_, by decide⟩
  · unfold PresenceDetector.configure_range PresenceDetector.presetRangeMm
      PresenceDetector.calculate_optimal_profile
      PresenceDetector.calculate_optimal_step_length ratAsU32 natClamp
    norm_num
  · have hstep : PresenceDetector.applyCompleteStepLength 700 = 12 := by
      unfold PresenceDetector.applyCompleteStepLength ratAsU32 natClamp
      norm_num
    simp [PresenceDetector.apply_complete_configuration,
      PresenceDetector.resetModuleWrite, writeRegister, I2cState.init,
      waitForNotBusy, readStatusWord, busySet, STATUS_BUSY_MASK,
      PresenceDetector.configurationOk, PresenceDetector.applyCompleteProfile,
      hstep, PRESENCE_REG_COMMAND_ADDRESS, PRESENCE_REG_AUTO_PROFILE_ADDRESS,
      PRESENCE_REG_AUTO_STEP_LENGTH_ADDRESS, PRESENCE_REG_MANUAL_PROFILE_ADDRESS,
      PRESENCE_REG_MANUAL_STEP_LENGTH_ADDRESS, PRESENCE_REG_SIGNAL_QUALITY_ADDRESS,
      PRESENCE_REG_START_ADDRESS, PRESENCE_REG_END_ADDRESS]

/-- Claim C5 (amended): `calculate_optimal_profile` realizes exactly the
documented millimetre table (≤ 700 → 1, ≤ 2000 → 2, ≤ 3500 → 3,
≤ 6000 → 4, else 5) and the step length is `end_mm / 60` clamped to
[12, 120]; the three presets give (1, 12), (2, 33) and (4, 91).
`apply_complete_configuration` writes the same clamped step length but its
own profile — 5 iff end ≥ 6500 mm, else 4 — which agrees with the table for
the Long preset only; its full successful write sequence (on a bus whose
polled status words are idle and error-free) is `presenceApplyWriteList`,
carrying that profile and step length. -/
theorem presence_profile_selection_amended :
    (∀ s e : Nat, PresenceDetector.calculate_optimal_profile s e =
        if e ≤ 700 then 1 else if e ≤ 2000 then 2 else if e ≤ 3500 then 3
        else if e ≤ 6000 then 4 else 5)
    ∧ (∀ e : Nat, PresenceDetector.calculate_optimal_step_length e =
        natClamp (e / 60) 12 120)
    ∧ PresenceDetector.configure_range .short none none = (1, 12)
    ∧ PresenceDetector.configure_range .medium none none = (2, 33)
    ∧ PresenceDetector.configure_range .long none none = (4, 91)
    ∧ (∀ e : Nat, PresenceDetector.applyCompleteStepLength e =
        PresenceDetector.calculate_optimal_step_length e)
    ∧ PresenceDetector.applyCompleteProfile 5500 =
        PresenceDetector.calculate_optimal_profile 300 5500
    ∧ (∀ (σ : Nat → Nat) (fuel s e : Nat),
        busySet (σ 0) = false → busySet (σ 1) = false →
        σ 2 &&& 0x10000000 = 0 →
        PresenceDetector.apply_complete_configuration (fuel + 1) s e
            (I2cState.init σ)
          = (⟨σ, 3, presenceApplyWriteList s e⟩, .ok ())) := by
  have hdiv : ∀ e c : Nat, 0 < c →
      (((e : ℚ) / 1000 ≤ (c : ℚ) / 1000) ↔ e ≤ c) := by
    intro e c hc
    rw [div_le_div_iff_of_pos_right (by norm_num : (0:ℚ) < 1000)]
    exact_mod_cast Iff.rfl
  refine ⟨?_, ?_, ?_, ?_, ?_, fun _ => rfl, ?_, ?_⟩
  · intro s e
    unfold PresenceDetector.calculate_optimal_profile
    have k1 : (((e : ℚ) / 1000 ≤ 7/10) ↔ e ≤ 700) := by
      rw [show (7/10 : ℚ) = (700 : ℚ)/1000 by norm_num,
        show ((700 : ℚ)) = ((700 : ℕ) : ℚ) by norm_num]
      exact hdiv e 700 (by norm_num)
    have k2 : (((e : ℚ) / 1000 ≤ 2) ↔ e ≤ 2000) := by
      rw [show (2 : ℚ) = (2000 : ℚ)/1000 by norm_num,
        show ((2000 : ℚ)) = ((2000 : ℕ) : ℚ) by norm_num]
      exact hdiv e 2000 (by norm_num)
    have k3 : (((e : ℚ) / 1000 ≤ 7/2) ↔ e ≤ 3500) := by
      rw [show (7/2 : ℚ) = (3500 : ℚ)/1000 by norm_num,
        show ((3500 : ℚ)) = ((3500 : ℕ) : ℚ) by norm_num]
      exact hdiv e 3500 (by norm_num)
    have k4 : (((e : ℚ) / 1000 ≤ 6) ↔ e ≤ 6000) := by
      rw [show (6 : ℚ) = (6000 : ℚ)/1000 by norm_num,
        show ((6000 : ℚ)) = ((6000 : ℕ) : ℚ) by norm_num]
      exact hdiv e 6000 (by norm_num)
    simp only [k1, k2, k3, k4]
  · intro e
    simp only [PresenceDetector.calculate_optimal_step_length, ratAsU32]
    have hx : (⌊(e : ℚ) / 1000 * 1000 / 60⌋).toNat = e / 60 := by
      rw [div_mul_cancel₀ ((e : ℚ)) (by norm_num : (1000:ℚ) ≠ 0)]
      rw [show (60 : ℚ) = ((60 : ℕ) : ℚ) by norm_num]
      rw [Int.floor_toNat, Nat.floor_div_nat, Nat.floor_natCast]
    rw [hx]
  · unfold PresenceDetector.configure_range PresenceDetector.presetRangeMm
      PresenceDetector.calculate_optimal_profile
      PresenceDetector.calculate_optimal_step_length ratAsU32 natClamp
    norm_num [Int.toNat_ofNat]
  · unfold PresenceDetector.configure_range PresenceDetector.presetRangeMm
      PresenceDetector.calculate_optimal_profile
      PresenceDetector.calculate_optimal_step_length ratAsU32 natClamp
    norm_num [Int.toNat_ofNat]
    decide
  · unfold PresenceDetector.configure_range PresenceDetector.presetRangeMm
      PresenceDetector.calculate_optimal_profile
      PresenceDetector.calculate_optimal_step_length ratAsU32 natClamp
    norm_num [Int.toNat_ofNat]
    decide
  · unfold PresenceDetector.applyCompleteProfile
      PresenceDetector.calculate_optimal_profile
    norm_num
  · intro σ fuel s e hb0 hb1 herr
    simp [PresenceDetector.apply_complete_configuration,
      PresenceDetector.resetModuleWrite, writeRegister, I2cState.init,
      waitForNotBusy, readStatusWord, hb0, hb1,
      PresenceDetector.configurationOk, herr, presenceApplyWriteList]

/-- Witness for C5's amended theorem: the write sequence on an idle,
error-free bus for the Long preset's range. -/
theorem presence_profile_selection_amended_witness :
    PresenceDetector.apply_complete_configuration 1 300 5500
        (I2cState.init fun _ => 0)
      = (⟨fun _ => 0, 3, presenceApplyWriteList 300 5500⟩, .ok ()) :=
  presence_profile_selection_amended.2.2.2.2.2.2.2 (fun _ => 0) 0 300 5500
    (by decide) (by decide) (by decide)

/-- Polling helper: if the `j`-th further status read is the first
not-busy one and it lies within the poll budget, `waitForNotBusy` stops
right after it, leaving the write trace untouched. -/
lemma waitForNotBusy_found (σ : Nat → Nat) (w : List (Nat × Nat)) :
    ∀ (j fuel r : Nat), j < fuel → busySet (σ (r + j)) = false →
      (∀ k, k < j → busySet (σ (r + k)) = true) →
      waitForNotBusy fuel ⟨σ, r, w⟩ = (⟨σ, r + j + 1, w⟩, true) := by
  intro j
  induction j with
  | zero =>
    intro fuel r hf hclear _
    match fuel, hf with
    | f + 1, _ =>
      simp only [Nat.add_zero] at hclear
      simp [waitForNotBusy, readStatusWord, hclear]
  | succ j ih =>
    intro fuel r hf hclear hbusy
    match fuel, hf with
    | f + 1, _ =>
      have hb0 : busySet (σ (r + 0)) = true := hbusy 0 (Nat.succ_pos j)
      simp only [Nat.add_zero] at hb0
      have step := ih f (r + 1) (by omega)
        (by have := hclear; rw [show r + 1 + j = r + (j + 1) by omega]; exact this)
        (fun k hk => by
          rw [show r + 1 + k = r + (k + 1) by omega]
          exact hbusy (k + 1) (by omega))
      simp only [waitForNotBusy, readStatusWord, hb0, if_pos]
      rw [step]
      refine congrArg (fun n => ((⟨σ, n, w⟩ : I2cState), true)) ?_
      omega

/-- Polling helper: if every status read within the poll budget is busy,
`waitForNotBusy` times out, leaving the write trace untouched. -/
lemma waitForNotBusy_timeout (σ : Nat → Nat) (w : List (Nat × Nat)) :
    ∀ (fuel r : Nat), (∀ k, k < fuel → busySet (σ (r + k)) = true) →
      waitForNotBusy fuel ⟨σ, r, w⟩ = (⟨σ, r + fuel, w⟩, false) := by
  intro fuel
  induction fuel with
  | zero => intro r _; simp [waitForNotBusy]
  | succ f ih =>
    intro r hbusy
    have hb0 : busySet (σ (r + 0)) = true := hbusy 0 (Nat.succ_pos f)
    simp only [Nat.add_zero] at hb0
    have step := ih (r + 1) (fun k hk => by
      rw [show r + 1 + k = r + (k + 1) by omega]
      exact hbusy (k + 1) (by omega))
    simp only [waitForNotBusy, readStatusWord, hb0, if_pos]
    rw [step]
    refine congrArg (fun n => ((⟨σ, n, w⟩ : I2cState), false)) ?_
    omega

/-- Claim C1: for every command issued through `write_command_safe`
(distance or presence), the command register is only written after a status
read with the busy bit clear — if the first `i` reads are busy and read `i`
is clear (within the ~5 s poll budget), the run performs exactly the
conditional reset-module write followed by the command write, where the
reset precedes the command exactly when the post-wait error check (read
`i + 1`) shows an error bit and the command is not reset-module; and if the
status never shows not-busy within the budget, the call times out having
written nothing at all. -/
theorem write_command_safe_busy_error_discipline
    (σ : Nat → Nat) (fuel command : Nat) :
    (∀ i, i ≤ fuel → busySet (σ i) = false →
      (∀ k, k < i → busySet (σ k) = true) →
      DistanceDetector.write_command_safe fuel command (I2cState.init σ)
        = (⟨σ, i + 2, dErrorWrites σ i command ++ [(REG_COMMAND, command)]⟩, true)
      ∧ PresenceDetector.write_command_safe fuel command (I2cState.init σ)
        = (⟨σ, i + 2,
            pErrorWrites σ i command ++ [(PRESENCE_REG_COMMAND_ADDRESS, command)]⟩,
           true))
    ∧ ((∀ k, k ≤ fuel → busySet (σ k) = true) →
      DistanceDetector.write_command_safe fuel command (I2cState.init σ)
        = (⟨σ, fuel + 1, []⟩, false)
      ∧ PresenceDetector.write_command_safe fuel command (I2cState.init σ)
        = (⟨σ, fuel + 1, []⟩, false)) := by
  constructor
  · intro i hi hclear hbusy
    cases i with
    | zero =>
      constructor
      · simp [DistanceDetector.write_command_safe, readStatusWord, I2cState.init,
          hclear, DistanceDetector.resetModuleWrite, writeRegister,
          dErrorWrites, errorSet]
        split_ifs <;> simp
      · simp [PresenceDetector.write_command_safe, readStatusWord, I2cState.init,
          hclear, PresenceDetector.resetModuleWrite, writeRegister,
          pErrorWrites, errorSet]
        split_ifs <;> simp
    | succ i' =>
      have hb0 : busySet (σ 0) = true := hbusy 0 (Nat.succ_pos i')
      have hwait := waitForNotBusy_found σ [] i' fuel 1 (by omega)
        (by rw [show 1 + i' = i' + 1 by omega]; exact hclear)
        (fun k hk => by
          rw [show 1 + k = k + 1 by omega]
          exact hbusy (k + 1) (by omega))
      constructor
      · simp only [DistanceDetector.write_command_safe, readStatusWord,
          I2cState.init, hb0, if_pos]
        rw [show (1 : Nat) + i' + 1 = i' + 1 + 1 by omega] at hwait
        rw [hwait]
        simp [readStatusWord, DistanceDetector.resetModuleWrite, writeRegister,
          dErrorWrites, errorSet]
        split_ifs <;> simp [show i' + 1 + 1 + 1 = i' + 1 + 2 by omega]
      · simp only [PresenceDetector.write_command_safe, readStatusWord,
          I2cState.init, hb0, if_pos]
        rw [show (1 : Nat) + i' + 1 = i' + 1 + 1 by omega] at hwait
        rw [hwait]
        simp [readStatusWord, PresenceDetector.resetModuleWrite, writeRegister,
          pErrorWrites, errorSet]
        split_ifs <;> simp [show i' + 1 + 1 + 1 = i' + 1 + 2 by omega]
  · intro hall
    have hb0 : busySet (σ 0) = true := hall 0 (Nat.zero_le fuel)
    have hwait := waitForNotBusy_timeout σ [] fuel 1 (fun k hk =>
      hall (1 + k) (by omega))
    constructor
    · simp only [DistanceDetector.write_command_safe, readStatusWord,
        I2cState.init, hb0, if_pos]
      rw [hwait]
      refine congrArg (fun n => ((⟨σ, n, []⟩ : I2cState), false)) ?_
      omega
    · simp only [PresenceDetector.write_command_safe, readStatusWord,
        I2cState.init, hb0, if_pos]
      rw [hwait]
      refine congrArg (fun n => ((⟨σ, n, []⟩ : I2cState), false)) ?_
      omega

/-- Witness for C1: the bus is busy on the first read, idle on the second,
and shows a sensor-calibrate error bit on the post-wait check — both
detectors therefore wait, issue reset-module, then the command. -/
theorem write_command_safe_discipline_witness :
    DistanceDetector.write_command_safe 3 CMD_MEASURE_DISTANCE
        (I2cState.init disciplineOracle)
      = (⟨disciplineOracle, 3,
          dErrorWrites disciplineOracle 1 CMD_MEASURE_DISTANCE
            ++ [(REG_COMMAND, CMD_MEASURE_DISTANCE)]⟩, true)
    ∧ PresenceDetector.write_command_safe 3 CMD_MEASURE_DISTANCE
        (I2cState.init disciplineOracle)
      = (⟨disciplineOracle, 3,
          pErrorWrites disciplineOracle 1 CMD_MEASURE_DISTANCE
            ++ [(PRESENCE_REG_COMMAND_ADDRESS, CMD_MEASURE_DISTANCE)]⟩, true) :=
  (write_command_safe_busy_error_discipline disciplineOracle 3
      CMD_MEASURE_DISTANCE).1 1 (by decide) (by decide)
    (by decide)

/-- Soundness of the `read_distance_result` loop, generalized over the
starting iteration: a returned measurement always comes from the first
iteration whose result word has the calibration-needed bit clear, and every
earlier iteration (which triggered a recalibration) had it set. -/
lemma read_distance_result_sound (rounds : Nat → DistanceResultRegs) :
    ∀ (fuel k0 : Nat) (m : DistanceDecoded) (k : Nat),
      read_distance_result rounds fuel k0 = some (m, k) →
      k0 ≤ k ∧ (rounds k).result &&& 0x200 = 0
        ∧ (∀ j, k0 ≤ j → j < k → (rounds j).result &&& 0x200 ≠ 0)
        ∧ m = decodeDistanceResult (rounds k) := by
  intro fuel
  induction fuel with
  | zero =>
    intro k0 m k h
    simp [read_distance_result] at h
  | succ f ih =>
    intro k0 m k h
    rw [read_distance_result] at h
    by_cases hb : (rounds k0).result &&& 0x200 = 0
    · rw [if_neg (by simp [hb])] at h
      have hmk : decodeDistanceResult (rounds k0) = m ∧ k0 = k := by
        have := Option.some.inj h
        exact ⟨congrArg Prod.fst this, congrArg Prod.snd this⟩
      obtain ⟨hm', hk'⟩ := hmk
      subst hk'
      exact ⟨Nat.le_refl _, hb, fun j h1 h2 => absurd (Nat.lt_of_le_of_lt h1 h2)
        (Nat.lt_irrefl _), hm'.symm⟩
    · rw [if_pos (by simp [hb])] at h
      obtain ⟨h1, h2, h3, h4⟩ := ih (k0 + 1) m k h
      refine ⟨by omega, h2, ?_, h4⟩
      intro j hj1 hj2
      rcases Nat.eq_or_lt_of_le hj1 with he | hgt
      · rw [← he]; exact hb
      · exact h3 j hgt hj2

/-- Claim C4: when a decoded distance-result word has the
calibration-needed bit (bit 9) set, `read_distance_result` recalibrates and
re-reads instead of returning the stale data, surfacing no error for this
condition — a returned measurement always comes from a word with bit 9
clear, and each earlier word had triggered a recalibration.  A set
measure-error bit (bit 10) is only recorded in the decoded measurement and
never fails the call: with bit 9 clear the call returns the decoded
measurement regardless of bit 10. -/
theorem read_distance_result_recalibration_policy
    (rounds : Nat → DistanceResultRegs) :
    (∀ (fuel : Nat) (m : DistanceDecoded) (k : Nat),
        read_distance_result rounds fuel 0 = some (m, k) →
          (rounds k).result &&& 0x200 = 0
          ∧ (∀ j, j < k → (rounds j).result &&& 0x200 ≠ 0)
          ∧ m = decodeDistanceResult (rounds k))
    ∧ (∀ fuel : Nat, (rounds 0).result &&& 0x200 = 0 →
        read_distance_result rounds (fuel + 1) 0
          = some (decodeDistanceResult (rounds 0), 0))
    ∧ (∀ r : DistanceResultRegs,
        (decodeDistanceResult r).measureError = (r.result &&& 0x400 != 0)) := by
  refine ⟨?_, ?_, fun _ => rfl⟩
  · intro fuel m k h
    obtain ⟨_, h2, h3, h4⟩ := read_distance_result_sound rounds fuel 0 m k h
    exact ⟨h2, fun j hj => h3 j (Nat.zero_le j) hj, h4⟩
  · intro fuel hclear
    rw [read_distance_result, if_neg (by simp [hclear])]

/-- Witness for C4: the first round shows calibration-needed, the re-read
after the transparent recalibration has bit 9 clear and the measure-error
bit set — the call still returns that second round's measurement. -/
theorem read_distance_result_policy_witness :
    (calibrationRounds 1).result &&& 0x200 = 0
    ∧ (∀ j, j < 1 → (calibrationRounds j).result &&& 0x200 ≠ 0)
    ∧ decodeDistanceResult (calibrationRounds 1)
        = decodeDistanceResult (calibrationRounds 1) :=
  (read_distance_result_recalibration_policy calibrationRounds).1 5
    (decodeDistanceResult (calibrationRounds 1)) 1 (by decide)

end XM125
